import Mathlib

set_option autoImplicit false

namespace FindPet

/-!
Shallow embedding of the search ingestion and retrieval core of the
findpet backend: the cache manager (src/utils/cache.js), the search
helpers (the search-helpers section of src/utils/errors.js), the search
controllers (src/controllers/search.js), the image derivation pipeline
(src/services/image-processor.js), the storage adapter
(src/unnamed/part_011) and the similarity-service client
(src/unnamed/part_008 and src/services/predicter/searchSimilarImages.js).

The document store is modelled as a list of reports in insertion order;
a store query returns the matching documents in that order unless the
code requests a sort.  The store's geo-proximity operator is modelled as
planar Euclidean distance on coordinates measured in meters.
-/

/-- A geographic point of a report.  Coordinates are modelled as planar
offsets in meters so that the store's geo-proximity operator
(`$maxDistance`, in meters) becomes ordinary Euclidean distance. -/
structure Gps where
  x : Int
  y : Int
deriving DecidableEq, Repr

/-- One persisted Search document (src/models/search.js): city,
optional normalized phone, optional GPS location, type (FIND or LOST),
creation timestamp in milliseconds, and the optional set of the three
rendition filenames (`imageVersions`: thumbnail, medium, large). -/
structure Report where
  rid : Nat
  city : String
  phone : Option String
  gps : Option Gps
  rtype : String
  createdAt : Nat
  renditions : Option (String × String × String)
deriving DecidableEq, Repr

/-- Squared planar distance between two points, in square meters. -/
def gpsDistSq (a b : Gps) : Int :=
  (a.x - b.x) * (a.x - b.x) + (a.y - b.y) * (a.y - b.y)

/-- The candidate payload examined by the duplicate detector: the
fields of the incoming request body that `findPossibleDuplicates`
actually reads. -/
structure DupCandidate where
  phone : Option String
  gps : Option Gps
  rtype : String
deriving DecidableEq, Repr

/-- Phone-match signal of `findPossibleDuplicates`
(src/utils/errors.js): present only when the candidate has a phone, and
then an exact equality filter. -/
def dupPhoneMatch (c : DupCandidate) (r : Report) : Bool :=
  match c.phone with
  | some p => r.phone == some p
  | none => false

/-- Proximity signal of `findPossibleDuplicates` (src/utils/errors.js):
present only when the candidate has a GPS location, and then a
`$maxDistance: 100` meters geo filter on the store. -/
def dupGpsMatch (c : DupCandidate) (r : Report) : Bool :=
  match c.gps, r.gps with
  | some g, some rg => decide (gpsDistSq g rg ≤ 100 * 100)
  | _, _ => false

/-- 24 hours in milliseconds, the recency window of the duplicate
detector (`Date.now() - 24 * 60 * 60 * 1000`). -/
def DAY_MS : Nat := 24 * 60 * 60 * 1000

/-- `findPossibleDuplicates` from src/utils/errors.js.  Builds an `$or`
of the phone and proximity signals; returns `[]` immediately when both
are absent; restricts to documents of the same `type` created in the
last 24 hours; caps the result with `limit(5)` and issues no sort, so
the store answers in insertion order.  `queryFails` models an error
thrown by the store query, which the surrounding `try/catch` degrades
to the empty list. -/
def findPossibleDuplicates (db : List Report) (now : Nat) (c : DupCandidate)
    (queryFails : Bool) : List Report :=
  if c.phone.isNone && c.gps.isNone then []
  else if queryFails then []
  else
    (db.filter (fun r =>
      (dupPhoneMatch c r || dupGpsMatch c r)
        && decide (now - DAY_MS ≤ r.createdAt)
        && (r.rtype == c.rtype))).take 5

/-- `true` iff the list is ordered most-recent-first (non-increasing
`createdAt`). -/
def recencyOrderedDesc : List Report → Bool
  | [] => true
  | [_] => true
  | a :: b :: t => decide (b.createdAt ≤ a.createdAt) && recencyOrderedDesc (b :: t)

/-- `true` iff the list is ordered oldest-first (non-decreasing
`createdAt`). -/
def recencyOrderedAsc : List Report → Bool
  | [] => true
  | [_] => true
  | a :: b :: t => decide (a.createdAt ≤ b.createdAt) && recencyOrderedAsc (b :: t)

/-- JavaScript `parseInt(x) || d`: an absent or non-numeric value is
`NaN` (modelled as `none`) and falls back to the default, and so does a
parsed `0`, because `0` is falsy. -/
def jsIntOr (raw : Option Int) (dflt : Int) : Int :=
  match raw with
  | none => dflt
  | some v => if v = 0 then dflt else v

/-- The normalized pagination triple produced by
`normalizePaginationParams`. -/
structure PaginationParams where
  limit : Nat
  page : Nat
  skip : Nat
deriving DecidableEq, Repr

/-- `normalizePaginationParams` from src/utils/errors.js:
`limit = min(max(parseInt(limit) || 21, 1), 100)`,
`page = max(parseInt(page) || 1, 1)`, `skip = (page - 1) * limit`. -/
def normalizePaginationParams (limitRaw pageRaw : Option Int) : PaginationParams :=
  let limit : Nat := (min (max (jsIntOr limitRaw 21) 1) 100).toNat
  let page : Nat := (max (jsIntOr pageRaw 1) 1).toNat
  { limit := limit, page := page, skip := (page - 1) * limit }

/-- The pagination envelope assembled by `buildPaginationResponse`. -/
structure PaginationEnvelope where
  total : Nat
  page : Nat
  limit : Nat
  pages : Nat
  hasNext : Bool
  hasPrev : Bool
  showing : Nat
  startIndex : Nat
  endIndex : Nat
deriving DecidableEq, Repr

/-- `buildPaginationResponse` from src/utils/errors.js.
`pages = Math.ceil(totalCount / limit)` on non-negative integers with
`limit ≥ 1` is `(totalCount + limit - 1) / limit` in truncating
arithmetic; `hasNext = skip + results.length < totalCount`;
`hasPrev = page > 1`; `showing = results.length`. -/
def buildPaginationResponse (resultsLen totalCount : Nat) (p : PaginationParams) :
    PaginationEnvelope :=
  { total := totalCount
    page := p.page
    limit := p.limit
    pages := (totalCount + p.limit - 1) / p.limit
    hasNext := decide (p.skip + resultsLen < totalCount)
    hasPrev := decide (1 < p.page)
    showing := resultsLen
    startIndex := p.skip + 1
    endIndex := p.skip + resultsLen }

/-- One stored cache entry.  `expiresAt` is the absolute expiry time
set by `setEx` (store time plus TTL); the entry answers lookups only
strictly before it. -/
structure CacheEntry (α : Type) where
  key : String
  value : α
  expiresAt : Nat
deriving DecidableEq, Repr

/-- The state of the `CacheManager` (src/utils/cache.js) together with
its underlying store.  `available` models `isAvailable()` (enabled and
connected, with a live client); `failing` models a store whose
operations throw even though the client object exists — every such
error is caught inside `get`/`set`/`del`/`delPattern` and degraded to a
miss / no-op. -/
structure CacheState (α : Type) where
  available : Bool
  failing : Bool
  entries : List (CacheEntry α)
deriving DecidableEq, Repr

/-- The cache store performs an operation only when it is available and
not throwing; in every other case the operation degrades. -/
def cacheUsable {α : Type} (st : CacheState α) : Bool :=
  st.available && !st.failing

/-- `CacheManager.get`: `null` when the store is unavailable, on a
store error (caught internally), on a missing key, or on an expired
entry; otherwise the stored value. -/
def cacheGet {α : Type} (st : CacheState α) (now : Nat) (k : String) : Option α :=
  if cacheUsable st then
    match st.entries.find? (fun e => e.key == k) with
    | some e => if now < e.expiresAt then some e.value else none
    | none => none
  else none

/-- `CacheManager.set`: a `setEx` that replaces any previous entry for
the key and stamps the expiry `now + ttl`; returns `false` without
writing when the store is unavailable or throws. -/
def cacheSet {α : Type} (st : CacheState α) (now : Nat) (k : String) (v : α)
    (ttl : Nat) : Bool × CacheState α :=
  if cacheUsable st then
    (true,
      { st with
        entries :=
          { key := k, value := v, expiresAt := now + ttl }
            :: st.entries.filter (fun e => !(e.key == k)) })
  else (false, st)

/-- `CacheManager.withCache`: keyed lookup first; on a hit the stored
value is returned and the compute function is not invoked; on a miss
the compute function runs (an error from it is re-thrown), and its
result is stored only when it is neither `null` nor `undefined`
(modelled as `none`).  The result is the value (or error), the new
store state, and how many times the compute function was invoked. -/
def withCache {α : Type} (st : CacheState α) (now : Nat) (k : String)
    (compute : Except String (Option α)) (ttl : Nat) :
    Except String (Option α) × CacheState α × Nat :=
  match cacheGet st now k with
  | some v => (Except.ok (some v), st, 0)
  | none =>
    match compute with
    | Except.error e => (Except.error e, st, 1)
    | Except.ok data =>
      match data with
      | some v => (Except.ok (some v), (cacheSet st now k v ttl).2, 1)
      | none => (Except.ok none, st, 1)

/-- `executeSearchWithCache` from src/utils/errors.js: wraps `withCache`
in a `try/catch` and, when `withCache` threw, invokes the search
function directly once more and returns its result. -/
def executeSearchWithCache {α : Type} (st : CacheState α) (now : Nat) (k : String)
    (compute : Except String (Option α)) (ttl : Nat) :
    Except String (Option α) × CacheState α × Nat :=
  let r := withCache st now k compute ttl
  match r.1 with
  | Except.ok _ => r
  | Except.error _ => (compute, r.2.1, r.2.2 + 1)

/-- Redis `KEYS`-style glob matching restricted to the `*` wildcard —
the only wildcard the cache manager's patterns use; every other
character matches literally. -/
def globMatch : List Char → List Char → Bool
  | [], [] => true
  | [], _ :: _ => false
  | '*' :: ps, s =>
    globMatch ps s ||
      (match s with
       | [] => false
       | _ :: t => globMatch ('*' :: ps) t)
  | _ :: _, [] => false
  | p :: ps, c :: cs => p == c && globMatch ps cs
termination_by p s => p.length + s.length
decreasing_by all_goals simp_wf <;> omega

/-- A cache key matches a glob pattern. -/
def keyMatches (pat k : String) : Bool :=
  globMatch pat.toList k.toList

/-- `CacheManager.delPattern`: collects all keys matching the pattern
and deletes them, returning the count; degrades to `0` without deleting
when the store is unavailable or throws. -/
def delPattern {α : Type} (st : CacheState α) (pat : String) : Nat × CacheState α :=
  if cacheUsable st then
    ((st.entries.filter (fun e => keyMatches pat e.key)).length,
      { st with entries := st.entries.filter (fun e => !keyMatches pat e.key) })
  else (0, st)

/-- The pattern list built by `CacheManager.invalidateSearchCaches`:
three unconditional global patterns, plus city-scoped patterns when a
city is given, plus a type-scoped pattern when a type is given. -/
def invalidatePatterns (city ty : Option String) : List String :=
  ["findog:searches:*", "findog:search_count:*", "findog:top_cities:*"]
    ++ (match city with
        | some c =>
          ["findog:searches:*city:" ++ c ++ "*",
           "findog:reverse_search:*city:" ++ c ++ "*"]
        | none => [])
    ++ (match ty with
        | some t => ["findog:searches:*type:" ++ t ++ "*"]
        | none => [])

/-- Sequential `delPattern` over a pattern list, accumulating the
deletion count — the `for` loop of `invalidateSearchCaches`. -/
def delPatterns {α : Type} : CacheState α → List String → Nat × CacheState α
  | st, [] => (0, st)
  | st, p :: ps =>
    let r := delPattern st p
    let rest := delPatterns r.2 ps
    (r.1 + rest.1, rest.2)

/-- `CacheManager.invalidateSearchCaches(city, type)` from
src/utils/cache.js. -/
def invalidateSearchCaches {α : Type} (st : CacheState α) (city ty : Option String) :
    Nat × CacheState α :=
  delPatterns st (invalidatePatterns city ty)

/-- One target box of `IMAGE_SIZES` (src/services/image-processor.js). -/
structure SizeConfig where
  width : Nat
  height : Nat
  quality : Nat
  suffix : String
deriving DecidableEq, Repr

/-- `IMAGE_SIZES.thumbnail`: 300×300, quality 80, suffix `_thumb`. -/
def IMAGE_SIZES_thumbnail : SizeConfig :=
  { width := 300, height := 300, quality := 80, suffix := "_thumb" }

/-- `IMAGE_SIZES.medium`: 800×800, quality 85, suffix `_medium`. -/
def IMAGE_SIZES_medium : SizeConfig :=
  { width := 800, height := 800, quality := 85, suffix := "_medium" }

/-- `IMAGE_SIZES.large`: 1200×1200, quality 90, suffix `_large`. -/
def IMAGE_SIZES_large : SizeConfig :=
  { width := 1200, height := 1200, quality := 90, suffix := "_large" }

/-- Round-to-nearest division on naturals: `Math.round(a / b)`. -/
def roundDiv (a b : Nat) : Nat :=
  (2 * a + b) / (2 * b)

/-- Modelled from the spec: the dimension arithmetic of the external
`sharp` library's `resize(width, height, { fit: inside,
withoutEnlargement: true })` as invoked by `createVersion`
(src/services/image-processor.js) — the library itself is not part of
this repository.  The source is scaled by `min(boxW/w, boxH/h)` capped
at `1`, so a source already fitting the box is returned unchanged and
an oversized source is shrunk along its limiting axis with the other
axis rounded to nearest. -/
def resizeInsideDims (srcW srcH boxW boxH : Nat) : Nat × Nat :=
  if srcW ≤ boxW && srcH ≤ boxH then (srcW, srcH)
  else if boxW * srcH ≤ boxH * srcW then
    (boxW, roundDiv (srcH * boxW) srcW)
  else
    (roundDiv (srcW * boxH) srcH, boxH)

/-- The output dimensions of `ImageProcessor.createVersion` for a given
source and target configuration. -/
def createVersionDims (srcW srcH : Nat) (cfg : SizeConfig) : Nat × Nat :=
  resizeInsideDims srcW srcH cfg.width cfg.height

/-- The output filename of `ImageProcessor.createVersion`:
`filename + suffix + .webp`. -/
def versionFilename (id : String) (cfg : SizeConfig) : String :=
  id ++ cfg.suffix ++ ".webp"

/-- The per-request outcome flags of one ingest: whether the submitted
image passes `validateImage`, whether each of the three rendition
encode-and-write operations succeeds, whether the duplicate-detection
store query throws, and whether the document save succeeds. -/
structure IngestEnv where
  validImage : Bool
  thumbOk : Bool
  mediumOk : Bool
  largeOk : Bool
  dupQueryFails : Bool
  saveOk : Bool
deriving DecidableEq, Repr

/-- All three rendition derivations succeeded. -/
def derivedOk (env : IngestEnv) : Bool :=
  env.thumbOk && env.mediumOk && env.largeOk

/-- `ImageProcessor.processImage`: the three `createVersion` calls run
under `Promise.all`, so each successful encode writes its file even
when a sibling fails; the overall call returns the three filenames only
when all three succeeded and otherwise throws (`none`).  The second
component lists the files written to storage by this call. -/
def processImage (env : IngestEnv) (id : String) :
    Option (String × String × String) × List String :=
  let files :=
    (if env.thumbOk then [versionFilename id IMAGE_SIZES_thumbnail] else [])
      ++ (if env.mediumOk then [versionFilename id IMAGE_SIZES_medium] else [])
      ++ (if env.largeOk then [versionFilename id IMAGE_SIZES_large] else [])
  if derivedOk env then
    (some (versionFilename id IMAGE_SIZES_thumbnail,
           versionFilename id IMAGE_SIZES_medium,
           versionFilename id IMAGE_SIZES_large), files)
  else (none, files)

/-- `LocalStorageService.upload` (src/unnamed/part_011): validates the
decoded image before any processing — an invalid image fails the upload
with no file written — and otherwise defers to `processImage`,
re-throwing its error. -/
def upload (env : IngestEnv) (id : String) :
    Option (String × String × String) × List String :=
  if env.validImage then processImage env id else (none, [])

/-- The request body of the ingest use case, reduced to the fields the
embedded code reads. -/
structure IngestPayload where
  rid : Nat
  city : String
  phone : Option String
  gps : Option Gps
  rtype : String
deriving DecidableEq, Repr

/-- What the ingest use case leaves behind: the HTTP status, the
persisted report if the ingest succeeded, the advisory duplicate list,
and the rendition files written to storage during the request. -/
structure IngestOutcome where
  status : Nat
  persisted : Option Report
  possibleDuplicates : List Report
  storedFiles : List String
deriving DecidableEq, Repr

/-- The string id under which the renditions of a payload are filed. -/
def reportId (p : IngestPayload) : String :=
  toString p.rid

/-- `createSearch` from src/controllers/search.js: run the duplicate
detector (its store error degrades to `[]` and never blocks the
ingest), upload and derive the renditions (a failure there is fatal and
surfaces as a 500 `FileError` with nothing persisted), then save the
report and answer 201 with the report and the advisory duplicate list.
The attachment of the three rendition references returned by
`LocalStorageService.upload` to the persisted report is modelled from
the spec: the revision of the controller that writes the
`imageVersions` field of the Search model is not in the sources, which
hold the model field (src/models/search.js) and the documented wiring
only.  A save failure is modelled with status 500 and nothing
persisted. -/
def createSearch (env : IngestEnv) (db : List Report) (now : Nat)
    (p : IngestPayload) : IngestOutcome :=
  let dups := findPossibleDuplicates db now
    { phone := p.phone, gps := p.gps, rtype := p.rtype } env.dupQueryFails
  let up := upload env (reportId p)
  match up.1 with
  | none =>
    { status := 500, persisted := none, possibleDuplicates := dups,
      storedFiles := up.2 }
  | some v =>
    if env.saveOk then
      { status := 201,
        persisted := some
          { rid := p.rid, city := p.city, phone := p.phone, gps := p.gps,
            rtype := p.rtype, createdAt := now, renditions := some v },
        possibleDuplicates := dups, storedFiles := up.2 }
    else
      { status := 500, persisted := none, possibleDuplicates := dups,
        storedFiles := up.2 }

/-- What one reverse-search round trip to the similarity service does:
either the service answers with a ranked id list, or the call fails
(non-2xx, connection failure or timeout). -/
inductive MLOutcome
  | ok (ids : List Nat)
  | failure
deriving DecidableEq, Repr

/-- `searchSimilarImages` in the revision carrying the `API_KEY`
header (src/unnamed/part_008): re-throws any axios error, so a failed
round trip reaches the caller as an exception. -/
def searchSimilarImages (o : MLOutcome) : Except Unit (Option (List Nat)) :=
  match o with
  | MLOutcome.ok ids => Except.ok (some ids)
  | MLOutcome.failure => Except.error ()

/-- `searchSimilarImages` in the older revision kept at
src/services/predicter/searchSimilarImages.js: its `catch` only logs,
so a failed round trip resolves to `undefined` (`none`) and never
throws. -/
def searchSimilarImagesLegacy (o : MLOutcome) : Except Unit (Option (List Nat)) :=
  match o with
  | MLOutcome.ok ids => Except.ok (some ids)
  | MLOutcome.failure => Except.ok none

/-- The filter the reverse-search controller hands to the final store
query: always the exact city, plus an `_id $in` list when AI similarity
produced ids. -/
structure SearchFilter where
  city : String
  idIn : Option (List Nat)
deriving DecidableEq, Repr

/-- A report matches the reverse-search filter. -/
def matchesFilter (f : SearchFilter) (r : Report) : Bool :=
  (r.city == f.city) &&
    (match f.idIn with
     | some ids => ids.contains r.rid
     | none => true)

/-- Insertion step of the `createdAt: -1` sort. -/
def insertByCreatedDesc (r : Report) : List Report → List Report
  | [] => [r]
  | x :: xs =>
    if x.createdAt < r.createdAt then r :: x :: xs
    else x :: insertByCreatedDesc r xs

/-- The `sort({ createdAt: -1 })` the controller requests from the
store (`buildSortParams` defaults to newest first). -/
def sortByCreatedDesc (l : List Report) : List Report :=
  l.foldr insertByCreatedDesc []

/-- The response of the reverse-search use case.  `mlCalled` records
whether the request reached the similarity client at all. -/
structure ReverseResponse where
  status : Nat
  searches : List Report
  pagination : PaginationEnvelope
  searchMethod : String
  hasAIResults : Bool
  mlCalled : Bool
  fromCache : Bool
deriving DecidableEq, Repr

/-- The final paginated store query of `reverseSearch`: `find(filters)`
sorted newest first with `limit`/`skip` from
`normalizePaginationParams({...query, limit: 50})`, raced with
`countDocuments(filters)`, then the pagination envelope. -/
def runFinalQuery (db : List Report) (f : SearchFilter) (pageRaw : Option Int) :
    List Report × PaginationEnvelope :=
  let p := normalizePaginationParams (some 50) pageRaw
  let matched := sortByCreatedDesc (db.filter (matchesFilter f))
  let pageItems := (matched.drop p.skip).take p.limit
  (pageItems, buildPaginationResponse pageItems.length matched.length p)

/-- `reverseSearch` from src/controllers/search.js, parameterized by
the similarity client.  `cachedResult` is what `cacheManager.get`
returned for the request's derived key (the full cached response, when
present).  On a miss with an image: fetch the candidate ids for the
city; with no candidate, skip the similarity call entirely; otherwise
call the client — an exception from it selects the `city_fallback`
method with the city-only filter, a non-empty id list selects
`ai_similarity` with an `_id $in` filter, and an empty or `undefined`
answer keeps the initial `city` method.  The final query then runs and
the request answers 200.  (The conditional `cacheManager.set` of slow
or AI-backed responses mutates only the cache, not the response, and is
not modelled.) -/
def reverseSearchWith (client : MLOutcome → Except Unit (Option (List Nat)))
    (db : List Report) (cachedResult : Option ReverseResponse) (city : String)
    (hasImage : Bool) (ml : MLOutcome) (pageRaw : Option Int) : ReverseResponse :=
  match cachedResult with
  | some c => { c with status := 200, fromCache := true, mlCalled := false }
  | none =>
    let baseFilter : SearchFilter := { city := city, idIn := none }
    let step : SearchFilter × String × Bool :=
      if hasImage then
        let candidateIds := (db.filter (fun r => r.city == city)).map (fun r => r.rid)
        if 0 < candidateIds.length then
          match client ml with
          | Except.error _ => (baseFilter, "city_fallback", true)
          | Except.ok simIds =>
            match simIds with
            | some ids =>
              if 0 < ids.length then
                ({ baseFilter with idIn := some ids }, "ai_similarity", true)
              else (baseFilter, "city", true)
            | none => (baseFilter, "city", true)
        else (baseFilter, "city", false)
      else (baseFilter, "city", false)
    let final := runFinalQuery db step.1 pageRaw
    { status := 200, searches := final.1, pagination := final.2,
      searchMethod := step.2.1,
      hasAIResults := step.2.1 == "ai_similarity",
      mlCalled := step.2.2, fromCache := false }

/-- The deployed composition: the controller with the similarity client
revision that propagates failures. -/
def reverseSearch (db : List Report) (cachedResult : Option ReverseResponse)
    (city : String) (hasImage : Bool) (ml : MLOutcome) (pageRaw : Option Int) :
    ReverseResponse :=
  reverseSearchWith searchSimilarImages db cachedResult city hasImage ml pageRaw

theorem normalize_limit_pos (limitRaw pageRaw : Option Int) :
    1 ≤ (normalizePaginationParams limitRaw pageRaw).limit := by
  simp [normalizePaginationParams]

theorem normalize_page_pos (limitRaw pageRaw : Option Int) :
    1 ≤ (normalizePaginationParams limitRaw pageRaw).page := by
  simp [normalizePaginationParams]

theorem normalize_skip_eq (limitRaw pageRaw : Option Int) :
    (normalizePaginationParams limitRaw pageRaw).skip =
      ((normalizePaginationParams limitRaw pageRaw).page - 1) *
        (normalizePaginationParams limitRaw pageRaw).limit := rfl

/-- The pagination law of the spec, as a predicate on the data the
envelope was built from: `showing` is the clamped tail size, `pages` is
the ceiling of `total / limit` (characterized as the least number of
`limit`-sized pages covering `total`), and `hasNext` holds exactly when
a further page exists. -/
def paginationLawHolds (total : Nat) (p : PaginationParams)
    (env : PaginationEnvelope) : Prop :=
  env.showing = min p.limit (total - (p.page - 1) * p.limit) ∧
  total ≤ env.pages * p.limit ∧
  (∀ m : Nat, total ≤ m * p.limit → env.pages ≤ m) ∧
  (env.hasNext = true ↔ p.page * p.limit < total)

/-- C3: for every listing request with valid, normalized `(page,
limit)` whose result page is the `limit`/`skip` slice of the `total`
matching records, the envelope built by `buildPaginationResponse`
satisfies `showing = min(limit, total - (page-1)*limit)` clamped at
zero, `pages = ceil(total/limit)`, and `hasNext` exactly when
`page*limit < total`. -/
theorem buildPaginationResponse_law (limitRaw pageRaw : Option Int)
    (total resultsLen : Nat) (p : PaginationParams)
    (hp : p = normalizePaginationParams limitRaw pageRaw)
    (hslice : resultsLen = min p.limit (total - p.skip)) :
    paginationLawHolds total p (buildPaginationResponse resultsLen total p) := by
  have hl : 1 ≤ p.limit := hp ▸ normalize_limit_pos limitRaw pageRaw
  have hpg : 1 ≤ p.page := hp ▸ normalize_page_pos limitRaw pageRaw
  have hskip : p.skip = (p.page - 1) * p.limit := hp ▸ normalize_skip_eq limitRaw pageRaw
  have hkey : p.page * p.limit = p.skip + p.limit := by
    rw [hskip, Nat.sub_one_mul]
    have hle : p.limit ≤ p.page * p.limit :=
      Nat.le_mul_of_pos_left p.limit (by omega)
    omega
  refine ⟨?_, ?_, ?_, ?_⟩
  · rw [← hskip]
    exact hslice
  · show total ≤ (total + p.limit - 1) / p.limit * p.limit
    rcases Nat.eq_zero_or_pos total with h0 | hpos
    · simp [h0]
    · have hrw : total + p.limit - 1 = (total - 1) + p.limit := by omega
      have hq : (total + p.limit - 1) / p.limit = (total - 1) / p.limit + 1 := by
        rw [hrw, Nat.add_div_right _ (by omega)]
      rw [hq]
      have hlt : (total - 1) / p.limit < (total - 1) / p.limit + 1 := Nat.lt_succ_self _
      have := (Nat.div_lt_iff_lt_mul (by omega : 0 < p.limit)).mp hlt
      omega
  · intro m hm
    show (total + p.limit - 1) / p.limit ≤ m
    rw [Nat.div_le_iff_le_mul_add_pred (by omega : 0 < p.limit), Nat.mul_comm]
    have := Nat.add_le_add_right hm (p.limit - 1)
    omega
  · show decide (p.skip + resultsLen < total) = true ↔ p.page * p.limit < total
    rw [decide_eq_true_iff, hkey, hslice]
    rcases Nat.le_total p.limit (total - p.skip) with h | h
    · rw [Nat.min_eq_left h]
    · rw [Nat.min_eq_right h]
      omega

/-- C3 witness: the law at `limit=10`, `page=2`, `total=25` with the
proper slice length `10`. -/
theorem buildPaginationResponse_law_witness :
    paginationLawHolds 25 (normalizePaginationParams (some 10) (some 2))
      (buildPaginationResponse 10 25 (normalizePaginationParams (some 10) (some 2))) :=
  buildPaginationResponse_law (some 10) (some 2) 25 10
    (normalizePaginationParams (some 10) (some 2)) rfl (by decide)

/-- Three reports sharing one phone and type, created at 2000, 1000 and
3000 ms and stored in that insertion order. -/
def dupReportA : Report :=
  { rid := 1, city := "Rosario", phone := some "123", gps := none,
    rtype := "LOST", createdAt := 2000, renditions := none }

def dupReportB : Report :=
  { rid := 2, city := "Rosario", phone := some "123", gps := none,
    rtype := "LOST", createdAt := 1000, renditions := none }

def dupReportC : Report :=
  { rid := 3, city := "Rosario", phone := some "123", gps := none,
    rtype := "LOST", createdAt := 3000, renditions := none }

def dupDbExample : List Report :=
  [dupReportA, dupReportB, dupReportC]

def dupCandExample : DupCandidate :=
  { phone := some "123", gps := none, rtype := "LOST" }

/-- C4 counterexample: the duplicate query carries no sort clause, so
the result arrives in store insertion order — here createdAt 2000,
1000, 3000, which is neither newest-first nor oldest-first, refuting
"ordered by recency". -/
theorem findPossibleDuplicates_not_recency_ordered :
    findPossibleDuplicates dupDbExample 3000000 dupCandExample false =
      [dupReportA, dupReportB, dupReportC] ∧
    recencyOrderedDesc
      (findPossibleDuplicates dupDbExample 3000000 dupCandExample false) = false ∧
    recencyOrderedAsc
      (findPossibleDuplicates dupDbExample 3000000 dupCandExample false) = false := by
  decide

/-- The amended duplicate-detector contract: at most five results,
forming a subsequence of the store in insertion order (the query issues
no sort, so no recency ordering is guaranteed), and every result shares
the candidate's type, was created inside the 24-hour window, and
matches the candidate on phone or on 100-meter proximity. -/
def duplicatesSpecHolds (db : List Report) (now : Nat) (c : DupCandidate)
    (res : List Report) : Prop :=
  res.length ≤ 5 ∧ res.Sublist db ∧
    ∀ r ∈ res, r.rtype = c.rtype ∧ now - DAY_MS ≤ r.createdAt ∧
      (dupPhoneMatch c r = true ∨ dupGpsMatch c r = true)

/-- C4 (amended): for every candidate payload, `findPossibleDuplicates`
returns at most 5 reports, each of the candidate's type, created within
the last 24 hours, and matching on phone or on 100-meter proximity —
but in document-store order, not ordered by recency. -/
theorem findPossibleDuplicates_spec (db : List Report) (now : Nat)
    (c : DupCandidate) (qf : Bool) :
    duplicatesSpecHolds db now c (findPossibleDuplicates db now c qf) := by
  unfold findPossibleDuplicates duplicatesSpecHolds
  split
  · exact ⟨by simp, List.nil_sublist _, by simp⟩
  · split
    · exact ⟨by simp, List.nil_sublist _, by simp⟩
    · refine ⟨List.length_take_le _ _, (List.take_sublist _ _).trans (List.filter_sublist _), ?_⟩
      intro r hr
      have hr' := List.mem_of_mem_take hr
      rw [List.mem_filter] at hr'
      have hpred := hr'.2
      simp only [Bool.and_eq_true, Bool.or_eq_true, decide_eq_true_eq,
        beq_iff_eq] at hpred
      exact ⟨hpred.2, hpred.1.2, hpred.1.1⟩

/-- C4 witness: the amended contract evaluated on the concrete store
above. -/
theorem findPossibleDuplicates_spec_witness :
    duplicatesSpecHolds dupDbExample 3000000 dupCandExample
      (findPossibleDuplicates dupDbExample 3000000 dupCandExample false) :=
  findPossibleDuplicates_spec dupDbExample 3000000 dupCandExample false

theorem roundDiv_le (a b c : Nat) (hb : 0 < b) (h : a ≤ c * b) :
    roundDiv a b ≤ c := by
  unfold roundDiv
  have hx : 2 * a + b < (c + 1) * (2 * b) := by nlinarith
  have := (Nat.div_lt_iff_lt_mul (by omega : 0 < 2 * b)).mpr hx
  omega

theorem resizeInsideDims_no_upscale (srcW srcH boxW boxH : Nat)
    (hw : 0 < srcW) (hh : 0 < srcH) :
    (resizeInsideDims srcW srcH boxW boxH).1 ≤ srcW ∧
      (resizeInsideDims srcW srcH boxW boxH).2 ≤ srcH := by
  unfold resizeInsideDims
  split
  · exact ⟨Nat.le_refl _, Nat.le_refl _⟩
  next hfits =>
    have hnf : boxW < srcW ∨ boxH < srcH := by
      by_contra hc
      push_neg at hc
      simp [hc.1, hc.2] at hfits
    split
    next hlim =>
      have hbw : boxW ≤ srcW := by
        rcases hnf with h | h
        · exact Nat.le_of_lt h
        · have h1 : boxH * srcW < srcH * srcW := mul_lt_mul_of_pos_right h hw
          have h2 : boxW * srcH < srcH * srcW := Nat.lt_of_le_of_lt hlim h1
          rw [Nat.mul_comm srcH srcW] at h2
          exact Nat.le_of_lt (lt_of_mul_lt_mul_right h2 (Nat.zero_le _))
      exact ⟨hbw, roundDiv_le _ _ _ hw (Nat.mul_le_mul (Nat.le_refl srcH) hbw)⟩
    next hlim =>
      have hlt : boxH * srcW < boxW * srcH := Nat.lt_of_not_le hlim
      have hbh : boxH ≤ srcH := by
        by_contra hc
        push_neg at hc
        have hfirst : boxW < srcW := by
          rcases hnf with h | h
          · exact h
          · omega
        have h1 : boxW * srcH < srcW * srcH := mul_lt_mul_of_pos_right hfirst hh
        have h2 : srcH * srcW ≤ boxH * srcW :=
          Nat.mul_le_mul (Nat.le_of_lt hc) (Nat.le_refl srcW)
        rw [Nat.mul_comm srcW srcH] at h1
        omega
      exact ⟨roundDiv_le _ _ _ hh (Nat.mul_le_mul (Nat.le_refl srcW) hbh), hbh⟩

theorem resizeInsideDims_fits (srcW srcH boxW boxH : Nat)
    (hw : srcW ≤ boxW) (hh : srcH ≤ boxH) :
    resizeInsideDims srcW srcH boxW boxH = (srcW, srcH) := by
  simp [resizeInsideDims, hw, hh]

/-- The no-upscaling contract for one target box: a derived rendition
never exceeds the source in either dimension, and a source already
fitting inside the box comes back at exactly the source's dimensions,
not the box's. -/
def noUpscaleHolds (cfg : SizeConfig) : Prop :=
  ∀ srcW srcH : Nat, 0 < srcW → 0 < srcH →
    (createVersionDims srcW srcH cfg).1 ≤ srcW ∧
    (createVersionDims srcW srcH cfg).2 ≤ srcH ∧
    (srcW ≤ cfg.width → srcH ≤ cfg.height →
      createVersionDims srcW srcH cfg = (srcW, srcH))

theorem noUpscaleHolds_all (cfg : SizeConfig) : noUpscaleHolds cfg := by
  intro srcW srcH hw hh
  obtain ⟨h1, h2⟩ := resizeInsideDims_no_upscale srcW srcH cfg.width cfg.height hw hh
  exact ⟨h1, h2, fun hfw hfh => resizeInsideDims_fits srcW srcH cfg.width cfg.height hfw hfh⟩

/-- C9: for every source image and each of the three target boxes
(300×300, 800×800, 1200×1200), `createVersion` never upscales — if the
source fits inside the target box the rendition keeps the source's
exact dimensions, and in every case neither output dimension exceeds
the source. -/
theorem createVersion_no_upscale :
    noUpscaleHolds IMAGE_SIZES_thumbnail ∧ noUpscaleHolds IMAGE_SIZES_medium ∧
      noUpscaleHolds IMAGE_SIZES_large :=
  ⟨noUpscaleHolds_all _, noUpscaleHolds_all _, noUpscaleHolds_all _⟩

/-- C9 witness: a 200×150 source is below all three boxes and passes
through unchanged in each. -/
theorem createVersion_no_upscale_witness :
    createVersionDims 200 150 IMAGE_SIZES_thumbnail = (200, 150) ∧
    createVersionDims 200 150 IMAGE_SIZES_medium = (200, 150) ∧
    createVersionDims 200 150 IMAGE_SIZES_large = (200, 150) :=
  ⟨(createVersion_no_upscale.1 200 150 (by decide) (by decide)).2.2
      (by decide) (by decide),
   (createVersion_no_upscale.2.1 200 150 (by decide) (by decide)).2.2
      (by decide) (by decide),
   (createVersion_no_upscale.2.2 200 150 (by decide) (by decide)).2.2
      (by decide) (by decide)⟩

theorem findPossibleDuplicates_on_failure (db : List Report) (now : Nat)
    (c : DupCandidate) :
    findPossibleDuplicates db now c true = [] := by
  unfold findPossibleDuplicates
  split
  · rfl
  · simp

/-- The rendition-completeness invariant of one ingest: a persisted
report references exactly the three renditions written to storage by
its upload, and a failed derivation (invalid image or any failed
rendition) fails the whole ingest with nothing persisted — hence zero
renditions referenced by any persisted report. -/
def renditionInvariantHolds (env : IngestEnv) (p : IngestPayload)
    (out : IngestOutcome) : Prop :=
  (∀ r : Report, out.persisted = some r →
      r.renditions =
        some (versionFilename (reportId p) IMAGE_SIZES_thumbnail,
              versionFilename (reportId p) IMAGE_SIZES_medium,
              versionFilename (reportId p) IMAGE_SIZES_large) ∧
      out.storedFiles =
        [versionFilename (reportId p) IMAGE_SIZES_thumbnail,
         versionFilename (reportId p) IMAGE_SIZES_medium,
         versionFilename (reportId p) IMAGE_SIZES_large]) ∧
  ((env.validImage = false ∨ derivedOk env = false) →
      out.persisted = none ∧ 400 ≤ out.status)

/-- C2: every report persisted by `createSearch` references all three
renditions, which are exactly the files its upload wrote to storage;
and every failed derivation fails the ingest with nothing persisted. -/
theorem createSearch_rendition_invariant (env : IngestEnv) (db : List Report)
    (now : Nat) (p : IngestPayload) :
    renditionInvariantHolds env p (createSearch env db now p) := by
  unfold renditionInvariantHolds
  cases hv : env.validImage with
  | false =>
    constructor
    · intro r hr
      simp [createSearch, upload, hv] at hr
    · intro _
      constructor
      · simp [createSearch, upload, hv]
      · simp [createSearch, upload, hv]
  | true =>
    cases hd : derivedOk env with
    | false =>
      constructor
      · intro r hr
        simp [createSearch, upload, processImage, hv, hd] at hr
      · intro _
        constructor
        · simp [createSearch, upload, processImage, hv, hd]
        · simp [createSearch, upload, processImage, hv, hd]
    | true =>
      obtain ⟨⟨ht, hm⟩, hl⟩ : (env.thumbOk = true ∧ env.mediumOk = true) ∧ env.largeOk = true := by
        simpa [derivedOk, Bool.and_eq_true] using hd
      constructor
      · intro r hr
        cases hs : env.saveOk with
        | false => simp [createSearch, upload, processImage, hv, hd, hs] at hr
        | true =>
          simp [createSearch, upload, processImage, hv, hd, hs] at hr
          subst hr
          constructor
          · rfl
          · simp [createSearch, upload, processImage, hv, hd, hs, ht, hm, hl]
      · intro hcontra
        rcases hcontra with h | h <;> simp at h

/-- C7 contract: a failing duplicate query degrades to the empty list
instead of an exception; a healthy pipeline persists and answers 201
whatever the duplicates were; and the persistence outcome is entirely
independent of whether the duplicate query failed. -/
def dupSafetyHolds (env : IngestEnv) (db : List Report) (now : Nat)
    (p : IngestPayload) : Prop :=
  (env.dupQueryFails = true →
      (createSearch env db now p).possibleDuplicates = []) ∧
  (env.validImage = true → derivedOk env = true → env.saveOk = true →
      (createSearch env db now p).status = 201 ∧
      ((createSearch env db now p).persisted).isSome = true) ∧
  ((createSearch env db now p).status =
      (createSearch { env with dupQueryFails := !env.dupQueryFails } db now p).status ∧
    (createSearch env db now p).persisted =
      (createSearch { env with dupQueryFails := !env.dupQueryFails } db now p).persisted)

/-- C7: `findPossibleDuplicates` never throws to the caller of ingest —
a store error degrades to the empty list — and `createSearch` persists
the new report regardless of the duplicate query's outcome. -/
theorem createSearch_dup_safety (env : IngestEnv) (db : List Report)
    (now : Nat) (p : IngestPayload) : dupSafetyHolds env db now p := by
  refine ⟨?_, ?_, ?_⟩
  · intro hq
    rcases hu : (upload env (reportId p)).1 with _ | v <;>
      cases hs : env.saveOk <;>
        simp [createSearch, hu, hs, hq, findPossibleDuplicates_on_failure]
  · intro hv hd hs
    obtain ⟨⟨ht, hm⟩, hl⟩ : (env.thumbOk = true ∧ env.mediumOk = true) ∧ env.largeOk = true := by
      simpa [derivedOk, Bool.and_eq_true] using hd
    constructor <;> simp [createSearch, upload, processImage, hv, hd, hs]
  · have hupload : ∀ (d s : Bool),
        upload { env with dupQueryFails := d, saveOk := s } (reportId p) =
          upload env (reportId p) := fun _ _ => rfl
    constructor <;>
      rcases hu : (upload env (reportId p)).1 with _ | v <;>
        cases hs : env.saveOk <;>
          simp [createSearch, hu, hs, hupload]

/-- A fully healthy ingest environment. -/
def envAllOk : IngestEnv :=
  { validImage := true, thumbOk := true, mediumOk := true, largeOk := true,
    dupQueryFails := false, saveOk := true }

/-- A healthy ingest environment whose duplicate query throws. -/
def envDupFail : IngestEnv :=
  { envAllOk with dupQueryFails := true }

/-- An ingest environment whose medium rendition derivation fails. -/
def envBadDerive : IngestEnv :=
  { envAllOk with mediumOk := false }

def payloadExample : IngestPayload :=
  { rid := 7, city := "Rosario", phone := some "123", gps := none,
    rtype := "LOST" }

/-- C2 witness: the invariant evaluated on a healthy ingest of the
concrete payload against an empty store. -/
theorem createSearch_rendition_invariant_witness :
    renditionInvariantHolds envAllOk payloadExample
      (createSearch envAllOk [] 0 payloadExample) ∧
    renditionInvariantHolds envBadDerive payloadExample
      (createSearch envBadDerive [] 0 payloadExample) :=
  ⟨createSearch_rendition_invariant envAllOk [] 0 payloadExample,
   createSearch_rendition_invariant envBadDerive [] 0 payloadExample⟩

/-- C7 witness: the duplicate-safety contract evaluated on a concrete
ingest whose duplicate query throws. -/
theorem createSearch_dup_safety_witness :
    dupSafetyHolds envDupFail [] 0 payloadExample :=
  createSearch_dup_safety envDupFail [] 0 payloadExample

/-- The single-flight contract of `withCache` on one key: the first
call (a miss computing a non-null value) invokes its compute function
exactly once, and a second call within the TTL invokes its own compute
function zero times and returns the stored value. -/
def withCacheOnceHolds {α : Type} (st : CacheState α) (t1 t2 ttl : Nat)
    (k : String) (v : α) (g : Except String (Option α)) : Prop :=
  (withCache st t1 k (Except.ok (some v)) ttl).2.2 = 1 ∧
  (withCache ((withCache st t1 k (Except.ok (some v)) ttl).2.1) t2 k g ttl).2.2 = 0 ∧
  (withCache ((withCache st t1 k (Except.ok (some v)) ttl).2.1) t2 k g ttl).1 =
    Except.ok (some v)

/-- C5: two `withCache` calls on the same key within the TTL, starting
from a usable store and a miss, with a first compute producing a
non-null value, invoke a compute function exactly once overall: the
first call computes and stores, the second returns the stored value
without computing. -/
theorem withCache_single_flight {α : Type} (st : CacheState α) (t1 t2 ttl : Nat)
    (k : String) (v : α) (g : Except String (Option α))
    (hus : cacheUsable st = true) (hmiss : cacheGet st t1 k = none)
    (ht : t2 < t1 + ttl) :
    withCacheOnceHolds st t1 t2 ttl k v g := by
  obtain ⟨hav, hfl⟩ : st.available = true ∧ st.failing = false := by
    simpa [cacheUsable, Bool.and_eq_true] using hus
  have hget2 : cacheGet (cacheSet st t1 k v ttl).2 t2 k = some v := by
    simp [cacheSet, cacheGet, cacheUsable, hav, hfl, List.find?, ht]
  unfold withCacheOnceHolds
  simp only [withCache, hmiss, hget2]
  exact ⟨trivial, trivial, trivial⟩

/-- A concrete usable, empty cache over `Nat` values. -/
def cacheEmptyExample : CacheState Nat :=
  { available := true, failing := false, entries := [] }

def cacheKeyExample : String :=
  "findog:searches:city:Rosario"

/-- C5 witness: the single-flight contract on the concrete empty cache,
first call at time 0 with TTL 10, second call at time 5. -/
theorem withCache_single_flight_witness :
    withCacheOnceHolds cacheEmptyExample 0 5 10 cacheKeyExample 42 (Except.ok none) :=
  withCache_single_flight cacheEmptyExample 0 5 10 cacheKeyExample 42
    (Except.ok none) (by decide) rfl (by decide)

/-- The degradation contract of the read path: with the store
unreachable, both `withCache` and its wrapper return exactly what the
compute function returned, and no cache-store failure surfaces. -/
def cacheDegradeHolds {α : Type} (st : CacheState α) (now ttl : Nat)
    (k : String) (compute : Except String (Option α)) : Prop :=
  (withCache st now k compute ttl).1 = compute ∧
  (executeSearchWithCache st now k compute ttl).1 = compute

/-- C8: when the underlying cache store is unreachable (disabled,
disconnected, or throwing), `withCache` — and its wrapper
`executeSearchWithCache` — return exactly the result of invoking the
compute function, and no cache-store failure reaches the caller. -/
theorem withCache_unreachable_degrades {α : Type} (st : CacheState α)
    (now ttl : Nat) (k : String) (compute : Except String (Option α))
    (h : cacheUsable st = false) : cacheDegradeHolds st now ttl k compute := by
  have hget : cacheGet st now k = none := by simp [cacheGet, h]
  unfold cacheDegradeHolds executeSearchWithCache
  simp only [withCache, hget]
  cases compute with
  | error e => simp
  | ok data => cases data <;> simp

/-- A concrete disconnected cache over `Nat` values with one stale
entry. -/
def cacheDownExample : CacheState Nat :=
  { available := false, failing := false,
    entries := [{ key := cacheKeyExample, value := 7, expiresAt := 1000 }] }

/-- C8 witness: the degradation contract on the concrete disconnected
cache. -/
theorem withCache_unreachable_degrades_witness :
    cacheDegradeHolds cacheDownExample 3 60 cacheKeyExample (Except.ok (some 42)) :=
  withCache_unreachable_degrades cacheDownExample 3 60 cacheKeyExample
    (Except.ok (some 42)) (by decide)

theorem cacheUsable_delPattern {α : Type} (st : CacheState α) (pat : String) :
    cacheUsable (delPattern st pat).2 = cacheUsable st := by
  unfold delPattern
  split <;> rfl

theorem delPattern_entries_subset {α : Type} (st : CacheState α) (pat : String) :
    ∀ e ∈ (delPattern st pat).2.entries, e ∈ st.entries := by
  unfold delPattern
  split
  · intro e he
    exact List.mem_of_mem_filter he
  · intro e he
    exact he

theorem delPattern_clears {α : Type} (st : CacheState α) (pat : String)
    (h : cacheUsable st = true) :
    ∀ e ∈ (delPattern st pat).2.entries, keyMatches pat e.key = false := by
  unfold delPattern
  simp only [h, if_true]
  intro e he
  have := (List.mem_filter.mp he).2
  simpa using this

theorem delPatterns_cons {α : Type} (st : CacheState α) (q : String)
    (qs : List String) :
    (delPatterns st (q :: qs)).2 = (delPatterns (delPattern st q).2 qs).2 := rfl

theorem delPatterns_entries_subset {α : Type} (ps : List String) :
    ∀ (st : CacheState α), ∀ e ∈ (delPatterns st ps).2.entries, e ∈ st.entries := by
  induction ps with
  | nil => intro st e he; exact he
  | cons q qs ih =>
    intro st e he
    rw [delPatterns_cons] at he
    exact delPattern_entries_subset st q e (ih (delPattern st q).2 e he)

theorem delPatterns_clears {α : Type} (ps : List String) (pat : String) :
    ∀ (st : CacheState α), cacheUsable st = true → pat ∈ ps →
      ∀ e ∈ (delPatterns st ps).2.entries, keyMatches pat e.key = false := by
  induction ps with
  | nil =>
    intro st _ hp
    cases hp
  | cons q qs ih =>
    intro st hus hp e he
    rw [delPatterns_cons] at he
    rcases List.mem_cons.mp hp with rfl | hmem
    · exact delPattern_clears st pat hus e
        (delPatterns_entries_subset qs (delPattern st pat).2 e he)
    · exact ih (delPattern st q).2
        ((cacheUsable_delPattern st q).trans hus) hmem e he

def PATTERN_searches : String := "findog:searches:*"

def PATTERN_search_count : String := "findog:search_count:*"

def PATTERN_top_cities : String := "findog:top_cities:*"

/-- C10 contract: after `invalidateSearchCaches`, no entry survives
whose key matches any of the three global listing patterns, whatever
(or no) city and type were supplied — the invalidation is global, not
scoped. -/
def invalidationGlobalHolds {α : Type} (st : CacheState α)
    (city ty : Option String) : Prop :=
  ∀ e ∈ ((invalidateSearchCaches st city ty).2).entries,
    keyMatches PATTERN_searches e.key = false ∧
    keyMatches PATTERN_search_count e.key = false ∧
    keyMatches PATTERN_top_cities e.key = false

/-- C10: every call to `invalidateSearchCaches` — with any combination
of city and type arguments, including none — deletes every cache entry
matching `findog:searches:*`, `findog:search_count:*` and
`findog:top_cities:*`. -/
theorem invalidateSearchCaches_global {α : Type} (st : CacheState α)
    (city ty : Option String) (h : cacheUsable st = true) :
    invalidationGlobalHolds st city ty := by
  intro e he
  have h1 : PATTERN_searches ∈ invalidatePatterns city ty := by
    simp [invalidatePatterns, PATTERN_searches]
  have h2 : PATTERN_search_count ∈ invalidatePatterns city ty := by
    simp [invalidatePatterns, PATTERN_search_count]
  have h3 : PATTERN_top_cities ∈ invalidatePatterns city ty := by
    simp [invalidatePatterns, PATTERN_top_cities]
  exact ⟨delPatterns_clears (invalidatePatterns city ty) PATTERN_searches st h h1 e he,
    delPatterns_clears (invalidatePatterns city ty) PATTERN_search_count st h h2 e he,
    delPatterns_clears (invalidatePatterns city ty) PATTERN_top_cities st h h3 e he⟩

/-- A concrete usable cache holding one listing entry and one
reverse-search entry. -/
def cacheFullExample : CacheState Nat :=
  { available := true, failing := false,
    entries :=
      [{ key := cacheKeyExample, value := 7, expiresAt := 1000 },
       { key := "findog:reverse_search:city:Rosario", value := 8, expiresAt := 1000 }] }

/-- C10 witness: the global-invalidation contract evaluated on the
concrete cache with no city and no type supplied. -/
theorem invalidateSearchCaches_global_witness :
    invalidationGlobalHolds cacheFullExample (none : Option String) none :=
  invalidateSearchCaches_global cacheFullExample none none (by decide)

theorem matchesFilter_city_only (city : String) (db : List Report) :
    db.filter (matchesFilter { city := city, idIn := none }) =
      db.filter (fun r => r.city == city) := by
  induction db with
  | nil => rfl
  | cons a l ih => simp [List.filter_cons, matchesFilter, ih]

/-- C1 contract: on a cache miss with an image and at least one
candidate in the city, a failing similarity call still yields a 200
response labelled `city_fallback` whose result set is the final query
filtered only by city (sorted newest first and paginated). -/
def fallbackHolds (db : List Report) (city : String) (pageRaw : Option Int) : Prop :=
  (reverseSearch db none city true MLOutcome.failure pageRaw).status = 200 ∧
  (reverseSearch db none city true MLOutcome.failure pageRaw).searchMethod =
    "city_fallback" ∧
  (reverseSearch db none city true MLOutcome.failure pageRaw).mlCalled = true ∧
  (reverseSearch db none city true MLOutcome.failure pageRaw).searches =
    ((sortByCreatedDesc (db.filter (fun r => r.city == city))).drop
        (normalizePaginationParams (some 50) pageRaw).skip).take
      (normalizePaginationParams (some 50) pageRaw).limit

/-- C1: for every reverse-search request with an image and at least one
candidate report in the city, a failure or timeout of the Similarity
Client still completes the request with HTTP 200, `searchMethod =
"city_fallback"`, and a final query filtered only by city. -/
theorem reverseSearch_fallback (db : List Report) (city : String)
    (pageRaw : Option Int)
    (hcand : 0 < (db.filter (fun r => r.city == city)).length) :
    fallbackHolds db city pageRaw := by
  have hlen : 0 < ((db.filter (fun r => r.city == city)).map (fun r => r.rid)).length := by
    simpa [List.length_map] using hcand
  unfold fallbackHolds reverseSearch reverseSearchWith runFinalQuery
  simp [searchSimilarImages, hlen, hcand, matchesFilter_city_only]

/-- C6 contract: with an image but no report in the requested city, the
similarity client is never called, the result set is empty, and the
request still answers 200. -/
def emptyCityHolds (db : List Report) (city : String) (pageRaw : Option Int)
    (ml : MLOutcome) : Prop :=
  (reverseSearch db none city true ml pageRaw).mlCalled = false ∧
  (reverseSearch db none city true ml pageRaw).searches = [] ∧
  (reverseSearch db none city true ml pageRaw).status = 200

/-- C6: for every reverse-search request with an image whose city
matches zero existing reports, no call is made to the Similarity Client
and the returned result set is empty. -/
theorem reverseSearch_no_candidates (db : List Report) (city : String)
    (pageRaw : Option Int) (ml : MLOutcome)
    (h : db.filter (fun r => r.city == city) = []) :
    emptyCityHolds db city pageRaw ml := by
  unfold emptyCityHolds reverseSearch reverseSearchWith runFinalQuery
  simp [h, matchesFilter_city_only, sortByCreatedDesc]

/-- With the older client revision that swallows its errors, a failed
similarity call is indistinguishable from an empty answer: the
controller's catch never fires and the response is labelled `city`
(still 200 and city-filtered, but without the `city_fallback` label).
This documents why the deployed composition must use the re-throwing
client revision for the fallback label to appear. -/
theorem reverseSearchLegacy_failure_label (db : List Report) (city : String)
    (pageRaw : Option Int)
    (hcand : 0 < (db.filter (fun r => r.city == city)).length) :
    (reverseSearchWith searchSimilarImagesLegacy db none city true
        MLOutcome.failure pageRaw).searchMethod = "city" ∧
    (reverseSearchWith searchSimilarImagesLegacy db none city true
        MLOutcome.failure pageRaw).status = 200 := by
  unfold reverseSearchWith runFinalQuery
  simp [searchSimilarImagesLegacy, hcand]

/-- A store holding exactly one report, in Rosario. -/
def rvReportExample : Report :=
  { rid := 11, city := "Rosario", phone := some "123", gps := none,
    rtype := "LOST", createdAt := 5, renditions := none }

def rvDbExample : List Report :=
  [rvReportExample]

def cityRosario : String := "Rosario"

def cityCordoba : String := "Cordoba"

/-- C1 witness: the fallback contract on the one-report Rosario store
with a failing similarity service. -/
theorem reverseSearch_fallback_witness :
    fallbackHolds rvDbExample cityRosario none :=
  reverseSearch_fallback rvDbExample cityRosario none (by decide)

/-- C6 witness: the empty-city contract on the same store queried for
Cordoba, where no report exists. -/
theorem reverseSearch_no_candidates_witness :
    emptyCityHolds rvDbExample cityCordoba none MLOutcome.failure :=
  reverseSearch_no_candidates rvDbExample cityCordoba none MLOutcome.failure
    (by decide)

end FindPet
